/-
  Verification development for the GPS L1 C/A DLL+PLL tracking block
  (gps_l1_ca_dll_pll_tracking_cc.cc).

  The block is embedded shallowly: machine floats are modelled by exact
  rationals, the C library functions fmod and std::round (round half away
  from zero) are given explicit rational definitions, and the collaborator
  components whose sources live in other files (the volk EPL correlator,
  the DLL/PLL loop filters, the CN0/lock-test estimators, the PRN code
  generator) are abstracted: their per-step outputs enter the stream-step
  as oracle inputs, and the C/A code buffer is a parameter constrained by
  the sentinel equations that start_tracking establishes.
-/
import Mathlib

namespace GpsL1Tracking

/-! ## Rational models of the C numeric primitives -/

/-- Truncation toward zero, as the C cast to an integer behaves (written
with floors only so that it evaluates on literals). -/
def truncQ (x : ℚ) : ℤ := if 0 ≤ x then ⌊x⌋ else -⌊-x⌋

/-- The C library fmod: x - m * trunc (x / m); the result keeps the sign of x. -/
def fmodQ (x m : ℚ) : ℚ := x - m * (truncQ (x / m) : ℚ)

/-- std::round: rounding half away from zero. -/
def roundAway (x : ℚ) : ℤ := if 0 ≤ x then ⌊x + 1/2⌋ else -⌊-x + 1/2⌋

/-- On negative arguments truncation toward zero is the ceiling. -/
lemma truncQ_of_neg {x : ℚ} (h : ¬ 0 ≤ x) : truncQ x = ⌈x⌉ := by
  unfold truncQ
  rw [if_neg h, Int.floor_neg, neg_neg]

/-- On negative arguments rounding half away from zero is ceil (x - 1/2). -/
lemma roundAway_of_neg {x : ℚ} (h : ¬ 0 ≤ x) : roundAway x = ⌈x - 1/2⌉ := by
  unfold roundAway
  rw [if_neg h, show -x + 1/2 = -(x - 1/2) by ring, Int.floor_neg, neg_neg]

/-! ## Constants of GPS_L1_CA.h used by the file -/

def GPS_L1_FREQ_HZ : ℚ := 1575420000
def GPS_L1_CA_CODE_RATE_HZ : ℚ := 1023000
def GPS_L1_CA_CODE_LENGTH_CHIPS : ℚ := 1023
def CN0_ESTIMATION_SAMPLES : ℕ := 10
def MINIMUM_VALID_CN0 : ℚ := 25
def MAXIMUM_LOCK_FAIL_COUNTER : ℤ := 200

/-! ## Data model -/

/-- Modelled from the spec: the Gnss_Synchro record interchanged with the
acquisition stage and the telemetry decoder (gnss_synchro.h is not part of
this file; its fields are those the spec section 6 lists, default
constructed to zero). -/
structure GnssSynchro where
  PRN : ℕ := 0
  Acq_delay_samples : ℚ := 0
  Acq_doppler_hz : ℚ := 0
  Acq_samplestamp_samples : ℤ := 0
  Prompt_I : ℚ := 0
  Prompt_Q : ℚ := 0
  Tracking_timestamp_secs : ℚ := 0
  Carrier_phase_rads : ℚ := 0
  Code_phase_secs : ℚ := 0
  CN0_dB_hz : ℚ := 0
  Flag_valid_tracking : Bool := false
  deriving Repr, DecidableEq

/-- A default-constructed (zeroed) Gnss_Synchro. -/
def emptySynchro : GnssSynchro := {}

/-- Immutable configuration of the block (constructor arguments). -/
structure Config where
  fs_in : ℚ
  vector_length : ℕ
  deriving Repr, DecidableEq

/-- The mutable tracking state (the d_ member variables that the claims
touch).  Carrier phases are stored in cycles (radians divided by 2*pi) so
that the state stays rational; no claim inspects their numeric value. -/
structure TrackingState where
  d_code_freq_hz : ℚ
  d_carrier_doppler_hz : ℚ
  d_acq_carrier_doppler_hz : ℚ
  d_acq_code_phase_samples : ℚ
  d_acq_sample_stamp : ℤ
  d_sample_counter : ℤ
  d_sample_counter_seconds : ℚ
  d_rem_code_phase_samples : ℚ
  d_rem_carr_phase_rad : ℚ
  d_acc_carrier_phase_rad : ℚ
  d_code_phase_step_chips : ℚ
  d_current_prn_length_samples : ℤ
  d_next_prn_length_samples : ℤ
  d_next_rem_code_phase_samples : ℚ
  d_code_phase_samples : ℚ
  d_enable_tracking : Bool
  d_pull_in : Bool
  d_cn0_estimation_counter : ℕ
  d_Prompt_buffer : List (ℚ × ℚ)
  d_carrier_lock_test : ℚ
  d_CN0_SNV_dB_Hz : ℚ
  d_carrier_lock_fail_counter : ℤ
  d_carrier_lock_threshold : ℚ
  deriving Repr, DecidableEq

/-- The constructor Gps_L1_Ca_Dll_Pll_Tracking_cc (the member
initializations of lines 150-175 of the source). -/
def mkTrackingState (cfg : Config) : TrackingState :=
  { d_code_freq_hz := GPS_L1_CA_CODE_RATE_HZ
    d_carrier_doppler_hz := 0
    d_acq_carrier_doppler_hz := 0
    d_acq_code_phase_samples := 0
    d_acq_sample_stamp := 0
    d_sample_counter := 0
    d_sample_counter_seconds := 0
    d_rem_code_phase_samples := 0
    d_rem_carr_phase_rad := 0
    d_acc_carrier_phase_rad := 0
    d_code_phase_step_chips := 0
    d_current_prn_length_samples := (cfg.vector_length : ℤ)
    d_next_prn_length_samples := 0
    d_next_rem_code_phase_samples := 0
    d_code_phase_samples := 0
    d_enable_tracking := false
    d_pull_in := false
    d_cn0_estimation_counter := 0
    d_Prompt_buffer := []
    d_carrier_lock_test := 1
    d_CN0_SNV_dB_Hz := 0
    d_carrier_lock_fail_counter := 0
    d_carrier_lock_threshold := 5 }

/-- Per-step outputs of the collaborator components that are external to
this source file: the volk EPL correlator Prompt output (and whether its
float value is NaN), the two loop-filter NCO commands, the CN0 estimator
and the carrier lock detector of CN_estimators.h, and the number of input
samples the scheduler makes available (ninput_items[0]). -/
structure Oracle where
  ninput : ℕ
  promptIsNaN : Bool
  prompt_re : ℚ
  prompt_im : ℚ
  carr_nco : ℚ
  code_nco : ℚ
  cn0 : ℚ
  lock_test : ℚ
  deriving Repr, DecidableEq

/-- What one call of general_work produces: the new state, the number of
input samples passed to consume_each, the record written to the output
buffer (none when the call returns without writing it), the integers
pushed on the channel queue, and the return value (count of produced
output items). -/
structure StepResult where
  state : TrackingState
  consumed : ℤ
  outRecord : Option GnssSynchro
  messages : List ℤ
  retval : ℤ
  deriving Repr, DecidableEq

/-! ## start_tracking (source lines 184-267) -/

def start_tracking (cfg : Config) (seed : GnssSynchro) (s : TrackingState) :
    TrackingState :=
  let acq_code_phase0 := seed.Acq_delay_samples
  let acq_doppler := seed.Acq_doppler_hz
  let stamp := seed.Acq_samplestamp_samples
  let acq_trk_diff_samples : ℤ := s.d_sample_counter - stamp
  let acq_trk_diff_seconds : ℚ := (acq_trk_diff_samples : ℚ) / cfg.fs_in
  let radial_velocity : ℚ := (GPS_L1_FREQ_HZ + acq_doppler) / GPS_L1_FREQ_HZ
  let code_freq : ℚ := radial_velocity * GPS_L1_CA_CODE_RATE_HZ
  let T_chip_mod_seconds : ℚ := 1 / code_freq
  let T_prn_mod_seconds : ℚ := T_chip_mod_seconds * GPS_L1_CA_CODE_LENGTH_CHIPS
  let T_prn_mod_samples : ℚ := T_prn_mod_seconds * cfg.fs_in
  let next_prn : ℤ := roundAway T_prn_mod_samples
  let T_prn_true_seconds : ℚ := GPS_L1_CA_CODE_LENGTH_CHIPS / GPS_L1_CA_CODE_RATE_HZ
  let T_prn_true_samples : ℚ := T_prn_true_seconds * cfg.fs_in
  let T_prn_diff_seconds : ℚ := T_prn_true_seconds - T_prn_mod_seconds
  let N_prn_diff : ℚ := acq_trk_diff_seconds / T_prn_true_seconds
  let c0 : ℚ := fmodQ (acq_code_phase0 + T_prn_diff_seconds * N_prn_diff * cfg.fs_in)
      T_prn_true_samples
  let corrected : ℚ := if c0 < 0 then T_prn_mod_samples + c0 else c0
  { s with
    d_acq_code_phase_samples := corrected
    d_acq_carrier_doppler_hz := acq_doppler
    d_acq_sample_stamp := stamp
    d_code_freq_hz := code_freq
    d_next_prn_length_samples := next_prn
    d_carrier_doppler_hz := acq_doppler
    d_carrier_lock_fail_counter := 0
    d_rem_code_phase_samples := 0
    d_rem_carr_phase_rad := 0
    d_next_rem_code_phase_samples := 0
    d_acc_carrier_phase_rad := 0
    d_code_phase_samples := corrected
    d_pull_in := true
    d_enable_tracking := true }

/-! ## The lock / CN0 detector (source lines 487-518) -/

/-- The fail-counter update the source performs (line 500): increment when
d_carrier_lock_test < d_carrier_lock_threshold or
d_carrier_lock_test > MINIMUM_VALID_CN0, else decrement with floor 0. -/
def lockFailUpdate (threshold lock_test : ℚ) (fail : ℤ) : ℤ :=
  if lock_test < threshold ∨ lock_test > MINIMUM_VALID_CN0 then fail + 1
  else if fail > 0 then fail - 1 else fail

/-- The fail-counter update as the specification words it (section 4.9):
increment when the lock test is below the threshold OR the CN0 estimate is
below 25 dB-Hz, else decrement with floor 0.  Kept separate from
lockFailUpdate, which embeds what the source line 500 actually computes. -/
def specLockFailUpdate (threshold lock_test cn0 : ℚ) (fail : ℤ) : ℤ :=
  if lock_test < threshold ∨ cn0 < MINIMUM_VALID_CN0 then fail + 1
  else if fail > 0 then fail - 1 else fail

/-- Lines 487-518: fill the Prompt buffer while it is not full; when full,
recompute CN0 and the lock test (oracle values of the CN_estimators
functions), update the fail counter, and on overflow push the loss-of-lock
message 3 and disable tracking. -/
def lockDetector (s : TrackingState) (o : Oracle) : TrackingState × List ℤ :=
  if s.d_cn0_estimation_counter < CN0_ESTIMATION_SAMPLES then
    ({ s with
        d_Prompt_buffer := s.d_Prompt_buffer ++ [(o.prompt_re, o.prompt_im)]
        d_cn0_estimation_counter := s.d_cn0_estimation_counter + 1 }, [])
  else
    if lockFailUpdate s.d_carrier_lock_threshold o.lock_test
        s.d_carrier_lock_fail_counter > MAXIMUM_LOCK_FAIL_COUNTER then
      ({ s with
          d_cn0_estimation_counter := 0
          d_CN0_SNV_dB_Hz := o.cn0
          d_carrier_lock_test := o.lock_test
          d_carrier_lock_fail_counter := 0
          d_enable_tracking := false }, [3])
    else
      ({ s with
          d_cn0_estimation_counter := 0
          d_CN0_SNV_dB_Hz := o.cn0
          d_carrier_lock_test := o.lock_test
          d_carrier_lock_fail_counter := lockFailUpdate s.d_carrier_lock_threshold
            o.lock_test s.d_carrier_lock_fail_counter }, [])

/-! ## update_local_carrier (source lines 307-320)

The carrier NCO buffer itself (the cos/sin samples) is not modelled; the
residual and accumulated phase bookkeeping is, stored in cycles. -/

def updateLocalCarrier (cfg : Config) (s : TrackingState) : TrackingState :=
  let phase_step : ℚ := s.d_carrier_doppler_hz / cfg.fs_in
  let phase_end : ℚ := s.d_rem_carr_phase_rad +
      (s.d_current_prn_length_samples : ℚ) * phase_step
  let rem := fmodQ phase_end 1
  { s with
    d_rem_carr_phase_rad := rem
    d_acc_carrier_phase_rad := s.d_acc_carrier_phase_rad + rem }

/-! ## general_work (source lines 350-628) -/

/-- The unconditional tail of general_work (lines 624-627): consume
d_current_prn_length_samples input samples and advance both sample
counters, returning 1. -/
def finishStep (cfg : Config) (s : TrackingState) (outRec : GnssSynchro)
    (msgs : List ℤ) : StepResult :=
  { state := { s with
      d_sample_counter_seconds := s.d_sample_counter_seconds +
        (s.d_current_prn_length_samples : ℚ) / cfg.fs_in
      d_sample_counter := s.d_sample_counter + s.d_current_prn_length_samples }
    consumed := s.d_current_prn_length_samples
    outRecord := some outRec
    messages := msgs
    retval := 1 }

/-- The pull-in branch (lines 365-387): realign the stream by consuming
samples_offset samples; note that the branch returns 1 without writing the
output record. -/
def pullInStep (cfg : Config) (s : TrackingState) : StepResult :=
  let acq_to_trk_delay_samples : ℤ := s.d_sample_counter - s.d_acq_sample_stamp
  let shift : ℚ := (s.d_next_prn_length_samples : ℚ) -
      fmodQ (acq_to_trk_delay_samples : ℚ) (s.d_next_prn_length_samples : ℚ)
  let samples_offset : ℤ := roundAway (s.d_acq_code_phase_samples + shift)
  { state := { s with
      d_sample_counter_seconds := s.d_sample_counter_seconds +
        (samples_offset : ℚ) / cfg.fs_in
      d_sample_counter := s.d_sample_counter + samples_offset
      d_pull_in := false }
    consumed := samples_offset
    outRecord := none
    messages := []
    retval := 1 }

/-- One call of general_work.  seed is the record d_acquisition_gnss_synchro
points at, o carries the outputs of the external components for this call. -/
def general_work (cfg : Config) (seed : GnssSynchro) (s : TrackingState)
    (o : Oracle) : StepResult :=
  if s.d_enable_tracking then
    if s.d_pull_in then
      pullInStep cfg s
    else
      -- line 400: the block length for this call
      let s1 := { s with d_current_prn_length_samples := s.d_next_prn_length_samples }
      -- update_local_code fills the replica buffers (modelled separately as
      -- update_local_code below); update_local_carrier updates the phase state
      let s2 := updateLocalCarrier cfg s1
      -- lines 417-436: NaN check on the Prompt correlator output
      if o.promptIsNaN then
        { state := { s2 with d_sample_counter := s2.d_sample_counter + (o.ninput : ℤ) }
          consumed := (o.ninput : ℤ)
          outRecord := some { seed with
            Prompt_I := 0
            Prompt_Q := 0
            Tracking_timestamp_secs := s2.d_sample_counter_seconds
            Carrier_phase_rads := 0
            Code_phase_secs := 0
            CN0_dB_hz := 0
            Flag_valid_tracking := false }
          messages := []
          retval := 1 }
      else
        -- lines 438-454: discriminators, loop filters, NCO updates
        let carrier_doppler := s2.d_acq_carrier_doppler_hz + o.carr_nco
        let code_freq := GPS_L1_CA_CODE_RATE_HZ - o.code_nco
        let code_phase_step := code_freq / cfg.fs_in
        -- lines 456-481: block-length scheduler and code-phase update
        let T_chip_seconds : ℚ := 1 / code_freq
        let T_prn_seconds : ℚ := T_chip_seconds * GPS_L1_CA_CODE_LENGTH_CHIPS
        let T_prn_samples : ℚ := T_prn_seconds * cfg.fs_in
        let rem_code := s2.d_next_rem_code_phase_samples
        let K_blk_samples : ℚ := T_prn_samples + rem_code
        let T_prn_true_seconds : ℚ :=
          GPS_L1_CA_CODE_LENGTH_CHIPS / GPS_L1_CA_CODE_RATE_HZ
        let T_prn_true_samples : ℚ := T_prn_true_seconds * cfg.fs_in
        let cp1 := s2.d_code_phase_samples + T_prn_samples - T_prn_true_samples
        let cp2 := if cp1 < 0 then T_prn_true_samples + cp1 else cp1
        let cp3 := fmodQ cp2 T_prn_true_samples
        let next_prn : ℤ := roundAway K_blk_samples
        let next_rem : ℚ := K_blk_samples - (next_prn : ℚ)
        let s3 := { s2 with
          d_carrier_doppler_hz := carrier_doppler
          d_code_freq_hz := code_freq
          d_code_phase_step_chips := code_phase_step
          d_rem_code_phase_samples := rem_code
          d_code_phase_samples := cp3
          d_next_prn_length_samples := next_prn
          d_next_rem_code_phase_samples := next_rem }
        -- lines 487-518: CN0 estimation and lock detector
        let det := lockDetector s3 o
        -- lines 520-528: output record
        let outRec : GnssSynchro := { seed with
          Prompt_I := o.prompt_re
          Prompt_Q := o.prompt_im
          Tracking_timestamp_secs := det.1.d_sample_counter_seconds
          Carrier_phase_rads := det.1.d_acc_carrier_phase_rad
          Code_phase_secs := det.1.d_code_phase_samples * (1 / cfg.fs_in)
          CN0_dB_hz := det.1.d_CN0_SNV_dB_Hz }
        finishStep cfg det.1 outRec det.2
  else
    -- lines 558-568: not armed, emit a default-constructed record
    finishStep cfg s emptySynchro []

/-- Iterated stream-steps, accumulating the control messages in order. -/
def runSteps (cfg : Config) (seed : GnssSynchro) :
    TrackingState → List Oracle → TrackingState × List ℤ
  | s, [] => (s, [])
  | s, o :: os =>
    let r := general_work cfg seed s o
    let rest := runSteps cfg seed r.state os
    (rest.1, r.messages ++ rest.2)

/-! ## update_local_code (source lines 273-302)

The C/A code buffer d_ca_code is a parameter b : ℤ → Option α; reading
index i yields none exactly when the read would be out of the bounds the
buffer allocation (1025 complex samples, indices 0..1024) provides. -/

/-- The index computation of lines 285-297: 1 + round(fmod(t, 1023)). -/
def chipIndex (t : ℚ) : ℤ :=
  1 + roundAway (fmodQ t GPS_L1_CA_CODE_LENGTH_CHIPS)

/-- One buffer read of update_local_code. -/
def caCodeLookup {α : Type} (b : ℤ → Option α) (t : ℚ) : Option α :=
  b (chipIndex t)

/-- The unified resampling loop of update_local_code: for each output
position the Early, Prompt and Late reads, with tcode_chips accumulated by
code_phase_step_chips.  The initial tcode_chips of the source is
-(rem_code_phase_samples * (code_freq / fs)) (lines 280-281). -/
def update_local_code {α : Type} (b : ℤ → Option α) (elspace step : ℚ) :
    ℚ → ℕ → List (Option α × Option α × Option α)
  | _, 0 => []
  | t, n + 1 =>
    (caCodeLookup b (t - elspace), caCodeLookup b t, caCodeLookup b (t + elspace)) ::
      update_local_code b elspace step (t + step) n

/-! ## Arithmetic facts about the numeric primitives -/

/-- The residual left by rounding half away from zero is inside [-1/2, 1/2]. -/
lemma sub_roundAway_bounds (q : ℚ) :
    -(1/2) ≤ q - (roundAway q : ℚ) ∧ q - (roundAway q : ℚ) ≤ 1/2 := by
  by_cases h : 0 ≤ q
  · rw [roundAway, if_pos h]
    have h1 : ((⌊q + 1/2⌋ : ℤ) : ℚ) ≤ q + 1/2 := Int.floor_le _
    have h2 : q + 1/2 < (⌊q + 1/2⌋ : ℤ) + 1 := Int.lt_floor_add_one _
    constructor <;> [linarith; linarith]
  · rw [roundAway_of_neg h]
    have h1 : q - 1/2 ≤ ((⌈q - 1/2⌉ : ℤ) : ℚ) := Int.le_ceil _
    have h2 : ((⌈q - 1/2⌉ : ℤ) : ℚ) < q - 1/2 + 1 := Int.ceil_lt_add_one _
    constructor <;> [linarith; linarith]

/-- fmod of a nonnegative value by a positive modulus is in [0, m). -/
lemma fmodQ_nonneg_bounds {x m : ℚ} (hx : 0 ≤ x) (hm : 0 < m) :
    0 ≤ fmodQ x m ∧ fmodQ x m < m := by
  unfold fmodQ truncQ
  have hdiv : 0 ≤ x / m := div_nonneg hx hm.le
  rw [if_pos hdiv]
  have h1 : ((⌊x / m⌋ : ℤ) : ℚ) ≤ x / m := Int.floor_le _
  have h2 : x / m < (⌊x / m⌋ : ℤ) + 1 := Int.lt_floor_add_one _
  have hx' : m * (x / m) = x := by field_simp
  constructor
  · nlinarith
  · nlinarith

/-- fmod leaves a negative value inside (-m, 0) unchanged. -/
lemma fmodQ_of_neg {x m : ℚ} (h1 : -m < x) (h2 : x < 0) (hm : 0 < m) :
    fmodQ x m = x := by
  unfold fmodQ
  have hneg : x / m < 0 := div_neg_of_neg_of_pos h2 hm
  rw [truncQ_of_neg (not_le.mpr hneg)]
  have hceil : ⌈x / m⌉ = 0 := by
    rw [Int.ceil_eq_zero_iff, Set.mem_Ioc]
    constructor
    · rw [lt_div_iff₀ hm]
      linarith
    · exact hneg.le
  rw [hceil]
  push_cast
  ring

/-- Adding one modulus to a nonnegative argument does not change fmod. -/
lemma fmodQ_add_cancel {x m : ℚ} (hx : 0 ≤ x) (hm : 0 < m) :
    fmodQ (x + m) m = fmodQ x m := by
  unfold fmodQ truncQ
  have hdiv : 0 ≤ x / m := div_nonneg hx hm.le
  have hdiv2 : 0 ≤ (x + m) / m := div_nonneg (by linarith) hm.le
  rw [if_pos hdiv, if_pos hdiv2]
  have hxm : (x + m) / m = x / m + 1 := by field_simp
  rw [hxm, Int.floor_add_one]
  push_cast
  ring

/-- The chip index computed by update_local_code stays inside the buffer
bounds [0, 1024] whenever the chip argument is at least -1. -/
lemma chipIndex_bounds {x : ℚ} (hx : -1 ≤ x) :
    0 ≤ chipIndex x ∧ chipIndex x ≤ 1024 := by
  unfold chipIndex
  simp only [GPS_L1_CA_CODE_LENGTH_CHIPS]
  rcases le_or_lt 0 x with hx0 | hx0
  · obtain ⟨hf0, hf1⟩ := fmodQ_nonneg_bounds hx0 (show (0:ℚ) < 1023 by norm_num)
    unfold roundAway
    rw [if_pos (by linarith)]
    have hnn : 0 ≤ ⌊fmodQ x 1023 + 1/2⌋ := Int.floor_nonneg.mpr (by linarith)
    have hub : ⌊fmodQ x 1023 + 1/2⌋ < 1024 := by
      rw [Int.floor_lt]
      push_cast
      linarith
    omega
  · have hm : fmodQ x 1023 = x := by
      apply fmodQ_of_neg _ hx0 (show (0:ℚ) < 1023 by norm_num)
      linarith
    rw [hm, roundAway_of_neg (not_le.mpr hx0)]
    have hlb : (-1 : ℤ) ≤ ⌈x - 1/2⌉ := by
      have hmono := Int.ceil_le_ceil (a := (-3/2 : ℚ)) (b := x - 1/2) (by linarith)
      have hc : ⌈(-3/2 : ℚ)⌉ = -1 := by
        rw [show (-3/2 : ℚ) = -(3/2) by norm_num, Int.ceil_neg]
        norm_num
      omega
    have hub : ⌈x - 1/2⌉ ≤ 0 := Int.ceil_le.mpr (by push_cast; linarith)
    omega

/-- fmod leaves a value already inside [0, m) unchanged. -/
lemma fmodQ_of_lt {x m : ℚ} (h0 : 0 ≤ x) (h1 : x < m) : fmodQ x m = x := by
  have hm : 0 < m := lt_of_le_of_lt h0 h1
  unfold fmodQ truncQ
  rw [if_pos (div_nonneg h0 hm.le)]
  have hfl : ⌊x / m⌋ = 0 := by
    rw [Int.floor_eq_zero_iff, Set.mem_Ico]
    constructor
    · exact div_nonneg h0 hm.le
    · rw [div_lt_one hm]
      exact h1
  rw [hfl]
  push_cast
  ring

/-! ## Concrete exemplar inputs used by witnesses and counterexamples -/

def cfgA : Config := { fs_in := 4000000, vector_length := 4000 }

def cfgT : Config := { fs_in := 1023000, vector_length := 1023 }

def seedA : GnssSynchro :=
  { PRN := 1, Acq_delay_samples := 100, Acq_doppler_hz := 1000,
    Acq_samplestamp_samples := 0 }

def oA : Oracle :=
  { ninput := 8000, promptIsNaN := false, prompt_re := 1, prompt_im := 0,
    carr_nco := 0, code_nco := 0, cn0 := 40, lock_test := 1 }

/-- An armed state just before the first (pull-in) stream-step. -/
def sPull : TrackingState :=
  { mkTrackingState cfgA with
    d_enable_tracking := true
    d_pull_in := true
    d_next_prn_length_samples := 4000
    d_acq_code_phase_samples := 10
    d_sample_counter := 4000 }

/-- An armed post-pull-in running state. -/
def sRun : TrackingState :=
  { mkTrackingState cfgA with
    d_enable_tracking := true
    d_pull_in := false
    d_next_prn_length_samples := 4000
    d_sample_counter := 8000
    d_sample_counter_seconds := 1/500 }

/-! ## Claim C2: stream-steps while tracking is disabled -/

/-- C2 (amended): while enable_tracking is false, every stream-step emits
exactly one default (zeroed) record and returns 1, but it consumes
d_current_prn_length_samples input samples (the unconditional consume_each
at line 624), advancing sample_counter and sample_counter_seconds by that
block, rather than consuming zero samples. -/
theorem C2_disabled_step (cfg : Config) (seed : GnssSynchro) (s : TrackingState)
    (o : Oracle) (h : s.d_enable_tracking = false) :
    (general_work cfg seed s o).retval = 1 ∧
    (general_work cfg seed s o).outRecord = some emptySynchro ∧
    (general_work cfg seed s o).consumed = s.d_current_prn_length_samples ∧
    (general_work cfg seed s o).state.d_sample_counter =
      s.d_sample_counter + s.d_current_prn_length_samples ∧
    (general_work cfg seed s o).state.d_sample_counter_seconds =
      s.d_sample_counter_seconds + (s.d_current_prn_length_samples : ℚ) / cfg.fs_in := by
  simp [general_work, finishStep, h]

/-- C2 witness: the freshly constructed block is disabled and a step on it
behaves as C2_disabled_step states. -/
theorem C2_disabled_step_witness :
    (mkTrackingState cfgA).d_enable_tracking = false ∧
    ((general_work cfgA seedA (mkTrackingState cfgA) oA).retval = 1 ∧
     (general_work cfgA seedA (mkTrackingState cfgA) oA).outRecord = some emptySynchro ∧
     (general_work cfgA seedA (mkTrackingState cfgA) oA).consumed =
       (mkTrackingState cfgA).d_current_prn_length_samples ∧
     (general_work cfgA seedA (mkTrackingState cfgA) oA).state.d_sample_counter =
       (mkTrackingState cfgA).d_sample_counter +
         (mkTrackingState cfgA).d_current_prn_length_samples ∧
     (general_work cfgA seedA (mkTrackingState cfgA) oA).state.d_sample_counter_seconds =
       (mkTrackingState cfgA).d_sample_counter_seconds +
         ((mkTrackingState cfgA).d_current_prn_length_samples : ℚ) / cfgA.fs_in) :=
  ⟨rfl, C2_disabled_step cfgA seedA (mkTrackingState cfgA) oA rfl⟩

/-- C2 counterexample: on the freshly constructed (disabled) block with
vector_length 4000, a stream-step consumes 4000 samples, not zero, and
sample_counter does not stay unchanged. -/
theorem C2_zero_consumption_refuted :
    ¬ ((general_work cfgA seedA (mkTrackingState cfgA) oA).consumed = 0 ∧
       (general_work cfgA seedA (mkTrackingState cfgA) oA).state.d_sample_counter =
         (mkTrackingState cfgA).d_sample_counter) := by
  norm_num [general_work, finishStep, mkTrackingState, cfgA, oA]

/-! ## Claim C3: the pull-in stream-step -/

/-- C3 (amended): on the first armed stream-step the block consumes exactly
samples_offset = round(corrected_acq_phase_samples + (next_prn_length_samples
- fmod(sample_counter - Acq_samplestamp_samples, next_prn_length_samples)))
samples, advances both sample counters by that amount, clears pull_in and
returns 1 -- but it does not write the output record (the emitted item is
whatever the output buffer held; no placeholder copied from the acquisition
seed is stored). -/
theorem C3_pull_in_step (cfg : Config) (seed : GnssSynchro) (s : TrackingState)
    (o : Oracle) (h1 : s.d_enable_tracking = true) (h2 : s.d_pull_in = true) :
    (general_work cfg seed s o).consumed =
      roundAway (s.d_acq_code_phase_samples +
        ((s.d_next_prn_length_samples : ℚ) -
          fmodQ ((s.d_sample_counter - s.d_acq_sample_stamp : ℤ) : ℚ)
            (s.d_next_prn_length_samples : ℚ))) ∧
    (general_work cfg seed s o).state.d_sample_counter =
      s.d_sample_counter + (general_work cfg seed s o).consumed ∧
    (general_work cfg seed s o).state.d_sample_counter_seconds =
      s.d_sample_counter_seconds + ((general_work cfg seed s o).consumed : ℚ) / cfg.fs_in ∧
    (general_work cfg seed s o).state.d_pull_in = false ∧
    (general_work cfg seed s o).retval = 1 ∧
    (general_work cfg seed s o).outRecord = none := by
  simp [general_work, pullInStep, h1, h2]

/-- C3 witness: a concrete armed pull-in step. -/
theorem C3_pull_in_step_witness :
    sPull.d_enable_tracking = true ∧ sPull.d_pull_in = true ∧
    ((general_work cfgA seedA sPull oA).consumed =
      roundAway (sPull.d_acq_code_phase_samples +
        ((sPull.d_next_prn_length_samples : ℚ) -
          fmodQ ((sPull.d_sample_counter - sPull.d_acq_sample_stamp : ℤ) : ℚ)
            (sPull.d_next_prn_length_samples : ℚ))) ∧
    (general_work cfgA seedA sPull oA).state.d_sample_counter =
      sPull.d_sample_counter + (general_work cfgA seedA sPull oA).consumed ∧
    (general_work cfgA seedA sPull oA).state.d_sample_counter_seconds =
      sPull.d_sample_counter_seconds +
        ((general_work cfgA seedA sPull oA).consumed : ℚ) / cfgA.fs_in ∧
    (general_work cfgA seedA sPull oA).state.d_pull_in = false ∧
    (general_work cfgA seedA sPull oA).retval = 1 ∧
    (general_work cfgA seedA sPull oA).outRecord = none) :=
  ⟨rfl, rfl, C3_pull_in_step cfgA seedA sPull oA rfl rfl⟩

/-- C3 counterexample: on a concrete armed pull-in step no output record is
written at all, so in particular the emitted item is not an empty
Gnss_Synchro copied from the acquisition seed. -/
theorem C3_placeholder_record_refuted :
    (general_work cfgA seedA sPull oA).outRecord = none ∧
    ¬ ((general_work cfgA seedA sPull oA).outRecord = some seedA) := by
  constructor <;> simp [general_work, pullInStep, sPull, mkTrackingState, cfgA]

/-! ## Claim C6: the NaN error path -/

/-- C6 (confirmed): if the Prompt correlator output is NaN on an armed
post-pull-in step, the call emits exactly one record with
Flag_valid_tracking false and zeroed numeric fields, consumes all available
input samples, and leaves tracking enabled. -/
theorem C6_nan_step (cfg : Config) (seed : GnssSynchro) (s : TrackingState)
    (o : Oracle) (h1 : s.d_enable_tracking = true) (h2 : s.d_pull_in = false)
    (h3 : o.promptIsNaN = true) :
    (general_work cfg seed s o).outRecord = some { seed with
      Prompt_I := 0
      Prompt_Q := 0
      Tracking_timestamp_secs := s.d_sample_counter_seconds
      Carrier_phase_rads := 0
      Code_phase_secs := 0
      CN0_dB_hz := 0
      Flag_valid_tracking := false } ∧
    (general_work cfg seed s o).consumed = (o.ninput : ℤ) ∧
    (general_work cfg seed s o).retval = 1 ∧
    (general_work cfg seed s o).state.d_enable_tracking = true ∧
    (general_work cfg seed s o).state.d_sample_counter =
      s.d_sample_counter + (o.ninput : ℤ) := by
  simp [general_work, updateLocalCarrier, h1, h2, h3]

/-- An oracle reporting a NaN Prompt output. -/
def oNaN : Oracle :=
  { ninput := 4000, promptIsNaN := true, prompt_re := 0, prompt_im := 0,
    carr_nco := 0, code_nco := 0, cn0 := 40, lock_test := 1 }

/-- C6 witness: a concrete NaN step on a running state. -/
theorem C6_nan_step_witness :
    sRun.d_enable_tracking = true ∧ sRun.d_pull_in = false ∧ oNaN.promptIsNaN = true ∧
    ((general_work cfgA seedA sRun oNaN).outRecord = some { seedA with
      Prompt_I := 0
      Prompt_Q := 0
      Tracking_timestamp_secs := sRun.d_sample_counter_seconds
      Carrier_phase_rads := 0
      Code_phase_secs := 0
      CN0_dB_hz := 0
      Flag_valid_tracking := false } ∧
    (general_work cfgA seedA sRun oNaN).consumed = (oNaN.ninput : ℤ) ∧
    (general_work cfgA seedA sRun oNaN).retval = 1 ∧
    (general_work cfgA seedA sRun oNaN).state.d_enable_tracking = true ∧
    (general_work cfgA seedA sRun oNaN).state.d_sample_counter =
      sRun.d_sample_counter + (oNaN.ninput : ℤ)) :=
  ⟨rfl, rfl, rfl, C6_nan_step cfgA seedA sRun oNaN rfl rfl rfl⟩

/-! ## Claim C5: block-length scheduler -/

/-- The lock detector never changes the scheduler state. -/
lemma lockDetector_scheduler_fields (s : TrackingState) (o : Oracle) :
    (lockDetector s o).1.d_current_prn_length_samples = s.d_current_prn_length_samples ∧
    (lockDetector s o).1.d_code_freq_hz = s.d_code_freq_hz ∧
    (lockDetector s o).1.d_next_prn_length_samples = s.d_next_prn_length_samples ∧
    (lockDetector s o).1.d_next_rem_code_phase_samples = s.d_next_rem_code_phase_samples := by
  unfold lockDetector
  split_ifs <;> simp

/-- C5 (amended): on every armed post-pull-in step without NaN, the block
length used for correlation is the next_prn_length_samples computed by the
previous step, the freshly computed next_prn_length_samples equals
round((1023 / code_freq_hz) * fs + previous next_rem_code_phase_samples),
and the new rounding residual lies in the closed interval [-1/2, 1/2]
(round half away from zero can land exactly on -1/2, so the half-open
interval (-1/2, 1/2] of the claim is off at ties). -/
theorem C5_block_length_schedule (cfg : Config) (seed : GnssSynchro)
    (s : TrackingState) (o : Oracle) (h1 : s.d_enable_tracking = true)
    (h2 : s.d_pull_in = false) (h3 : o.promptIsNaN = false) :
    (general_work cfg seed s o).state.d_current_prn_length_samples =
      s.d_next_prn_length_samples ∧
    (general_work cfg seed s o).state.d_next_prn_length_samples =
      roundAway ((GPS_L1_CA_CODE_LENGTH_CHIPS /
          (general_work cfg seed s o).state.d_code_freq_hz) * cfg.fs_in +
        s.d_next_rem_code_phase_samples) ∧
    -(1/2) ≤ (general_work cfg seed s o).state.d_next_rem_code_phase_samples ∧
    (general_work cfg seed s o).state.d_next_rem_code_phase_samples ≤ 1/2 := by
  simp only [general_work, h1, h2, h3, if_true, if_false, Bool.false_eq_true,
    updateLocalCarrier, finishStep]
  refine ⟨?_, ?_, ?_, ?_⟩
  · rw [(lockDetector_scheduler_fields _ _).1]
  · rw [(lockDetector_scheduler_fields _ _).2.2.1, (lockDetector_scheduler_fields _ _).2.1]
    ring_nf
  · rw [(lockDetector_scheduler_fields _ _).2.2.2]
    exact (sub_roundAway_bounds _).1
  · rw [(lockDetector_scheduler_fields _ _).2.2.2]
    exact (sub_roundAway_bounds _).2

/-- C5 witness: a concrete armed post-pull-in step. -/
theorem C5_block_length_schedule_witness :
    sRun.d_enable_tracking = true ∧ sRun.d_pull_in = false ∧ oA.promptIsNaN = false ∧
    ((general_work cfgA seedA sRun oA).state.d_current_prn_length_samples =
      sRun.d_next_prn_length_samples ∧
    (general_work cfgA seedA sRun oA).state.d_next_prn_length_samples =
      roundAway ((GPS_L1_CA_CODE_LENGTH_CHIPS /
          (general_work cfgA seedA sRun oA).state.d_code_freq_hz) * cfgA.fs_in +
        sRun.d_next_rem_code_phase_samples) ∧
    -(1/2) ≤ (general_work cfgA seedA sRun oA).state.d_next_rem_code_phase_samples ∧
    (general_work cfgA seedA sRun oA).state.d_next_rem_code_phase_samples ≤ 1/2) :=
  ⟨rfl, rfl, rfl, C5_block_length_schedule cfgA seedA sRun oA rfl rfl rfl⟩

/-- An armed running state whose pending rounding residual is exactly +1/2,
about to schedule a block at the nominal rate (fs = 1023000 so that
T_prn_samples = 1023 exactly). -/
def sTie : TrackingState :=
  { mkTrackingState cfgT with
    d_enable_tracking := true
    d_pull_in := false
    d_next_prn_length_samples := 1023
    d_next_rem_code_phase_samples := 1/2 }

/-- An oracle with zero NCO corrections, keeping code_freq at the nominal
1023000 Hz. -/
def oTie : Oracle :=
  { ninput := 2046, promptIsNaN := false, prompt_re := 1, prompt_im := 0,
    carr_nco := 0, code_nco := 0, cn0 := 40, lock_test := 1 }

/-- C5 counterexample: with residual 1/2 pending and K_blk = 1023.5,
std::round rounds the tie away from zero to 1024 and the new residual is
exactly -1/2, outside the claimed half-open interval (-1/2, 1/2]. -/
theorem C5_residual_interval_refuted :
    ¬ (-(1/2) < (general_work cfgT emptySynchro sTie oTie).state.d_next_rem_code_phase_samples ∧
       (general_work cfgT emptySynchro sTie oTie).state.d_next_rem_code_phase_samples ≤ 1/2) := by
  norm_num [general_work, finishStep, lockDetector, updateLocalCarrier, mkTrackingState,
    fmodQ, truncQ, roundAway, cfgT, oTie, sTie, emptySynchro,
    GPS_L1_CA_CODE_LENGTH_CHIPS, GPS_L1_CA_CODE_RATE_HZ, CN0_ESTIMATION_SAMPLES]

/-! ## Claim C7: loss-of-lock propagation -/

/-- A stream-step on a disabled block pushes no message and leaves the
block disabled. -/
lemma general_work_disabled (cfg : Config) (seed : GnssSynchro) (s : TrackingState)
    (o : Oracle) (h : s.d_enable_tracking = false) :
    (general_work cfg seed s o).messages = [] ∧
    (general_work cfg seed s o).state.d_enable_tracking = false := by
  simp [general_work, finishStep, h]

/-- Any number of stream-steps on a disabled block pushes no message and
leaves the block disabled. -/
lemma runSteps_disabled (cfg : Config) (seed : GnssSynchro) :
    ∀ (os : List Oracle) (s : TrackingState), s.d_enable_tracking = false →
      (runSteps cfg seed s os).2 = [] ∧
      (runSteps cfg seed s os).1.d_enable_tracking = false := by
  intro os
  induction os with
  | nil => intro s h; exact ⟨rfl, h⟩
  | cons o os ih =>
    intro s h
    obtain ⟨hm, he⟩ := general_work_disabled cfg seed s o h
    obtain ⟨hm2, he2⟩ := ih _ he
    simp [runSteps, hm, hm2, he2]

/-- C7 (confirmed): when a lock-detector evaluation pushes the fail counter
beyond MAXIMUM_LOCK_FAIL_COUNTER, that stream-step pushes exactly the one
message 3, disables tracking, and every subsequent stream-step (for any
oracle inputs) pushes nothing and leaves tracking disabled until
start_tracking is called again. -/
theorem C7_loss_of_lock (cfg : Config) (seed : GnssSynchro) (s : TrackingState)
    (o : Oracle) (os : List Oracle)
    (h1 : s.d_enable_tracking = true) (h2 : s.d_pull_in = false)
    (h3 : o.promptIsNaN = false)
    (h4 : ¬ s.d_cn0_estimation_counter < CN0_ESTIMATION_SAMPLES)
    (h5 : MAXIMUM_LOCK_FAIL_COUNTER < lockFailUpdate s.d_carrier_lock_threshold
        o.lock_test s.d_carrier_lock_fail_counter) :
    (general_work cfg seed s o).messages = [3] ∧
    (general_work cfg seed s o).state.d_enable_tracking = false ∧
    (runSteps cfg seed (general_work cfg seed s o).state os).2 = [] ∧
    (runSteps cfg seed (general_work cfg seed s o).state os).1.d_enable_tracking = false := by
  have hstep : (general_work cfg seed s o).messages = [3] ∧
      (general_work cfg seed s o).state.d_enable_tracking = false := by
    simp [general_work, lockDetector, updateLocalCarrier, finishStep, h1, h2, h3, h4, h5]
  obtain ⟨hrest1, hrest2⟩ := runSteps_disabled cfg seed os _ hstep.2
  exact ⟨hstep.1, hstep.2, hrest1, hrest2⟩

/-- A running state whose Prompt buffer is full and whose fail counter sits
at the threshold 200. -/
def sTrig : TrackingState :=
  { mkTrackingState cfgA with
    d_enable_tracking := true
    d_pull_in := false
    d_next_prn_length_samples := 4000
    d_cn0_estimation_counter := 10
    d_carrier_lock_fail_counter := 200 }

/-- An oracle whose lock-test value is below the threshold, forcing an
increment of the fail counter. -/
def oTrig : Oracle :=
  { ninput := 8000, promptIsNaN := false, prompt_re := 1, prompt_im := 0,
    carr_nco := 0, code_nco := 0, cn0 := 10, lock_test := 0 }

/-- C7 witness: a concrete triggering evaluation followed by two further
stream-steps. -/
theorem C7_loss_of_lock_witness :
    sTrig.d_enable_tracking = true ∧ sTrig.d_pull_in = false ∧
    oTrig.promptIsNaN = false ∧
    (¬ sTrig.d_cn0_estimation_counter < CN0_ESTIMATION_SAMPLES) ∧
    MAXIMUM_LOCK_FAIL_COUNTER < lockFailUpdate sTrig.d_carrier_lock_threshold
      oTrig.lock_test sTrig.d_carrier_lock_fail_counter ∧
    ((general_work cfgA seedA sTrig oTrig).messages = [3] ∧
    (general_work cfgA seedA sTrig oTrig).state.d_enable_tracking = false ∧
    (runSteps cfgA seedA (general_work cfgA seedA sTrig oTrig).state [oA, oTrig]).2 = [] ∧
    (runSteps cfgA seedA (general_work cfgA seedA sTrig oTrig).state
      [oA, oTrig]).1.d_enable_tracking = false) :=
  ⟨rfl, rfl, rfl,
   by norm_num [sTrig, mkTrackingState, cfgA, CN0_ESTIMATION_SAMPLES],
   by norm_num [sTrig, oTrig, mkTrackingState, cfgA, lockFailUpdate,
     MAXIMUM_LOCK_FAIL_COUNTER, MINIMUM_VALID_CN0],
   C7_loss_of_lock cfgA seedA sTrig oTrig [oA, oTrig] rfl rfl rfl
     (by norm_num [sTrig, mkTrackingState, cfgA, CN0_ESTIMATION_SAMPLES])
     (by norm_num [sTrig, oTrig, mkTrackingState, cfgA, lockFailUpdate,
       MAXIMUM_LOCK_FAIL_COUNTER, MINIMUM_VALID_CN0])⟩

/-! ## Claim C4: the arming computation of start_tracking -/

/-- The corrected-phase computation lands in [0, M) whenever its fmod
argument is nonnegative (then the negative branch that adds
T_prn_mod_samples is not taken). -/
lemma corrected_range {X M Tmod : ℚ} (hX : 0 ≤ X) (hM : 0 < M) :
    0 ≤ (if fmodQ X M < 0 then Tmod + fmodQ X M else fmodQ X M) ∧
    (if fmodQ X M < 0 then Tmod + fmodQ X M else fmodQ X M) < M := by
  obtain ⟨h0, h1⟩ := fmodQ_nonneg_bounds hX hM
  rw [if_neg (not_lt.mpr h0)]
  exact ⟨h0, h1⟩

/-- C4 (amended): after start_tracking, carrier_doppler_hz equals
Acq_doppler_hz and code_freq_hz equals (1 + Acq_doppler_hz / L1) * CA_RATE
unconditionally; the corrected acquisition code phase lies in
[0, T_prn_true_samples) provided the acquisition Doppler is nonnegative
(for a negative Doppler the negative-fmod branch adds T_prn_mod_samples,
which exceeds T_prn_true_samples, and the bound can fail). -/
theorem C4_start_tracking_props (cfg : Config) (seed : GnssSynchro)
    (s : TrackingState) (hfs : 0 < cfg.fs_in)
    (hdop : 0 ≤ seed.Acq_doppler_hz) (hdelay : 0 ≤ seed.Acq_delay_samples)
    (hstamp : seed.Acq_samplestamp_samples ≤ s.d_sample_counter) :
    (start_tracking cfg seed s).d_carrier_doppler_hz = seed.Acq_doppler_hz ∧
    (start_tracking cfg seed s).d_code_freq_hz =
      (1 + seed.Acq_doppler_hz / GPS_L1_FREQ_HZ) * GPS_L1_CA_CODE_RATE_HZ ∧
    0 ≤ (start_tracking cfg seed s).d_acq_code_phase_samples ∧
    (start_tracking cfg seed s).d_acq_code_phase_samples <
      (GPS_L1_CA_CODE_LENGTH_CHIPS / GPS_L1_CA_CODE_RATE_HZ) * cfg.fs_in := by
  have hL1 : GPS_L1_FREQ_HZ ≠ 0 := by norm_num [GPS_L1_FREQ_HZ]
  have key : 0 ≤ (start_tracking cfg seed s).d_acq_code_phase_samples ∧
      (start_tracking cfg seed s).d_acq_code_phase_samples <
        (GPS_L1_CA_CODE_LENGTH_CHIPS / GPS_L1_CA_CODE_RATE_HZ) * cfg.fs_in := by
    simp only [start_tracking]
    refine corrected_range ?_ ?_
    · apply add_nonneg hdelay
      apply mul_nonneg (mul_nonneg ?_ ?_) hfs.le
      · -- the PRN-period difference is nonnegative for nonnegative Doppler
        simp only [GPS_L1_CA_CODE_LENGTH_CHIPS, GPS_L1_CA_CODE_RATE_HZ, GPS_L1_FREQ_HZ]
        have hcf : (1023000:ℚ) ≤ (1575420000 + seed.Acq_doppler_hz)/1575420000 * 1023000 := by
          have h1 : (1:ℚ) ≤ (1575420000 + seed.Acq_doppler_hz)/1575420000 := by
            rw [le_div_iff₀ (by norm_num : (0:ℚ) < 1575420000)]
            linarith
          nlinarith
        have hinv : 1/((1575420000 + seed.Acq_doppler_hz)/1575420000 * 1023000) ≤
            1/(1023000:ℚ) := one_div_le_one_div_of_le (by norm_num) hcf
        have hmul : 1/((1575420000 + seed.Acq_doppler_hz)/1575420000 * 1023000) * 1023 ≤
            1/(1023000:ℚ) * 1023 :=
          mul_le_mul_of_nonneg_right hinv (by norm_num)
        have hval : 1/(1023000:ℚ) * 1023 = 1023/1023000 := by norm_num
        linarith
      · -- the elapsed number of PRN periods is nonnegative
        apply div_nonneg (div_nonneg ?_ hfs.le)
          (by norm_num [GPS_L1_CA_CODE_LENGTH_CHIPS, GPS_L1_CA_CODE_RATE_HZ])
        have hz : (0:ℤ) ≤ s.d_sample_counter - seed.Acq_samplestamp_samples := by omega
        exact_mod_cast hz
    · exact mul_pos
        (by norm_num [GPS_L1_CA_CODE_LENGTH_CHIPS, GPS_L1_CA_CODE_RATE_HZ]) hfs
  refine ⟨rfl, ?_, key.1, key.2⟩
  show (GPS_L1_FREQ_HZ + seed.Acq_doppler_hz) / GPS_L1_FREQ_HZ * GPS_L1_CA_CODE_RATE_HZ =
    (1 + seed.Acq_doppler_hz / GPS_L1_FREQ_HZ) * GPS_L1_CA_CODE_RATE_HZ
  rw [add_div, div_self hL1]

/-- C4 witness: arming with fs 4 MHz, delay 100 samples, Doppler +1000 Hz. -/
theorem C4_start_tracking_props_witness :
    0 < cfgA.fs_in ∧ 0 ≤ seedA.Acq_doppler_hz ∧ 0 ≤ seedA.Acq_delay_samples ∧
    seedA.Acq_samplestamp_samples ≤ (mkTrackingState cfgA).d_sample_counter ∧
    ((start_tracking cfgA seedA (mkTrackingState cfgA)).d_carrier_doppler_hz =
      seedA.Acq_doppler_hz ∧
    (start_tracking cfgA seedA (mkTrackingState cfgA)).d_code_freq_hz =
      (1 + seedA.Acq_doppler_hz / GPS_L1_FREQ_HZ) * GPS_L1_CA_CODE_RATE_HZ ∧
    0 ≤ (start_tracking cfgA seedA (mkTrackingState cfgA)).d_acq_code_phase_samples ∧
    (start_tracking cfgA seedA (mkTrackingState cfgA)).d_acq_code_phase_samples <
      (GPS_L1_CA_CODE_LENGTH_CHIPS / GPS_L1_CA_CODE_RATE_HZ) * cfgA.fs_in) :=
  ⟨by norm_num [cfgA], by norm_num [seedA], by norm_num [seedA],
   by norm_num [seedA, mkTrackingState, cfgA],
   C4_start_tracking_props cfgA seedA (mkTrackingState cfgA)
     (by norm_num [cfgA]) (by norm_num [seedA]) (by norm_num [seedA])
     (by norm_num [seedA, mkTrackingState, cfgA])⟩

/-- An acquisition record with negative Doppler (-5000 Hz) and zero delay. -/
def c4Seed : GnssSynchro :=
  { PRN := 1, Acq_delay_samples := 0, Acq_doppler_hz := -5000,
    Acq_samplestamp_samples := 0 }

/-- A state 1600 samples past the acquisition stamp. -/
def c4State : TrackingState := { mkTrackingState cfgA with d_sample_counter := 1600 }

/-- C4 counterexample: with Acq_doppler -5000 Hz, fs 4 MHz, zero delay and a
1600-sample acquisition-to-tracking gap, the fmod argument is negative and
the code adds T_prn_mod_samples (about 4000.0127), leaving
corrected_acq_phase_samples at about 4000.0076, which is not below
T_prn_true_samples = 4000; the claimed conjunction fails. -/
theorem C4_phase_bound_refuted :
    ¬ ((start_tracking cfgA c4Seed c4State).d_carrier_doppler_hz =
        c4Seed.Acq_doppler_hz ∧
       (start_tracking cfgA c4Seed c4State).d_code_freq_hz =
         (1 + c4Seed.Acq_doppler_hz / GPS_L1_FREQ_HZ) * GPS_L1_CA_CODE_RATE_HZ ∧
       0 ≤ (start_tracking cfgA c4Seed c4State).d_acq_code_phase_samples ∧
       (start_tracking cfgA c4Seed c4State).d_acq_code_phase_samples <
         (GPS_L1_CA_CODE_LENGTH_CHIPS / GPS_L1_CA_CODE_RATE_HZ) * cfgA.fs_in) := by
  intro h
  have hb := h.2.2.2
  norm_num [start_tracking, mkTrackingState, fmodQ, truncQ, roundAway, cfgA, c4Seed,
    c4State, GPS_L1_CA_CODE_LENGTH_CHIPS, GPS_L1_CA_CODE_RATE_HZ, GPS_L1_FREQ_HZ] at hb

/-! ## Claim C9: periodicity of the local replica -/

/-- One buffer read of update_local_code is 1023-periodic in the chip
argument, as long as the argument stays above -1/2, thanks to the sentinel
copy d_ca_code[1024] = d_ca_code[1]. -/
lemma caCodeLookup_period {α : Type} {b : ℤ → Option α}
    (hb1 : b 1024 = b 1) {x : ℚ} (hx : -(1/2) < x) :
    caCodeLookup b (x + 1023) = caCodeLookup b x := by
  unfold caCodeLookup chipIndex
  simp only [GPS_L1_CA_CODE_LENGTH_CHIPS]
  rcases le_or_lt 0 x with h0 | h0
  · rw [fmodQ_add_cancel h0 (by norm_num)]
  · have hfx : fmodQ x 1023 = x := fmodQ_of_neg (by linarith) h0 (by norm_num)
    have hfx2 : fmodQ (x + 1023) 1023 = x + 1023 :=
      fmodQ_of_lt (by linarith) (by linarith)
    rw [hfx, hfx2]
    have hr1 : roundAway x = 0 := by
      rw [roundAway_of_neg (not_le.mpr h0), Int.ceil_eq_zero_iff, Set.mem_Ioc]
      constructor <;> linarith
    have hr2 : roundAway (x + 1023) = 1023 := by
      rw [roundAway, if_pos (by linarith : (0:ℚ) ≤ x + 1023)]
      rw [Int.floor_eq_iff]
      constructor <;> [push_cast; push_cast] <;> linarith
    rw [hr1, hr2]
    simpa using hb1

/-- C9 (amended): two runs of update_local_code whose initial tcode_chips
values differ by exactly 1023 chips produce identical Early/Prompt/Late
sequences, provided the code-phase step and the early-late spacing are
nonnegative and every visited chip argument stays above -1/2 (that is,
-1/2 < c - early_late_space_chips).  Below -1/2, rounding ties and the
asymmetry of fmod on negative arguments break the equality. -/
theorem C9_replica_periodicity {α : Type} (b : ℤ → Option α)
    (hb1 : b 1024 = b 1) (elspace step c : ℚ) (n : ℕ)
    (hel : 0 ≤ elspace) (hstep : 0 ≤ step) (hc : -(1/2) < c - elspace) :
    update_local_code b elspace step (c + 1023) n =
      update_local_code b elspace step c n := by
  induction n generalizing c with
  | zero => rfl
  | succ n ih =>
    have he : caCodeLookup b ((c + 1023) - elspace) = caCodeLookup b (c - elspace) := by
      rw [show (c + 1023) - elspace = (c - elspace) + 1023 by ring]
      exact caCodeLookup_period hb1 hc
    have hp : caCodeLookup b (c + 1023) = caCodeLookup b c :=
      caCodeLookup_period hb1 (by linarith)
    have hl : caCodeLookup b ((c + 1023) + elspace) = caCodeLookup b (c + elspace) := by
      rw [show (c + 1023) + elspace = (c + elspace) + 1023 by ring]
      exact caCodeLookup_period hb1 (by linarith)
    have ht : update_local_code b elspace step ((c + 1023) + step) n =
        update_local_code b elspace step (c + step) n := by
      rw [show (c + 1023) + step = (c + step) + 1023 by ring]
      exact ih (c + step) (by linarith)
    simp only [update_local_code, he, hp, hl, ht]

/-- A concrete C/A-code-like buffer: defined exactly on [0, 1024], with the
sentinel equalities of start_tracking (index 0 copies index 1023, index
1024 copies index 1) and distinct values at the two wrap points. -/
def bEx : ℤ → Option ℚ := fun i =>
  if i = 0 ∨ i = 1023 then some 5
  else if i = 1 ∨ i = 1024 then some 7
  else if 0 ≤ i ∧ i ≤ 1024 then some 0
  else none

/-- C9 witness: a concrete three-sample run shifted by 1023 chips. -/
theorem C9_replica_periodicity_witness :
    bEx 1024 = bEx 1 ∧ (0:ℚ) ≤ 1/4 ∧ (0:ℚ) ≤ 1 ∧ -(1/2) < (0:ℚ) - 1/4 ∧
    update_local_code bEx (1/4) 1 ((0:ℚ) + 1023) 3 =
      update_local_code bEx (1/4) 1 (0:ℚ) 3 :=
  ⟨by norm_num [bEx], by norm_num, by norm_num, by norm_num,
   C9_replica_periodicity bEx (by norm_num [bEx]) (1/4) 1 0 3
     (by norm_num) (by norm_num) (by norm_num)⟩

/-- C9 counterexample: starting at tcode_chips = -1/2 (a value the tracking
loop can reach, since tcode_chips starts at -rem_code_phase_chips), the
run at c and the run at c + 1023 disagree at the Prompt tap of the first
sample: round(-1/2) = -1 hits the low sentinel (chip 1023) while
round(1022.5) = 1023 hits the high sentinel (chip 1), so the claim fails
for arbitrary starting code phase. -/
theorem C9_periodicity_refuted :
    ¬ (update_local_code bEx (1/4) 0 (-(1/2) + 1023) 1 =
       update_local_code bEx (1/4) 0 (-(1/2)) 1) := by
  have e1 : update_local_code bEx (1/4) 0 (-(1/2) + 1023) 1 =
      [(caCodeLookup bEx ((-(1/2) + 1023) - 1/4),
        caCodeLookup bEx ((-(1/2) + 1023 : ℚ)),
        caCodeLookup bEx ((-(1/2) + 1023) + 1/4))] := rfl
  have e2 : update_local_code bEx (1/4) 0 ((-(1/2) : ℚ)) 1 =
      [(caCodeLookup bEx ((-(1/2)) - 1/4),
        caCodeLookup bEx ((-(1/2) : ℚ)),
        caCodeLookup bEx ((-(1/2)) + 1/4))] := rfl
  have hv1 : caCodeLookup bEx ((-(1/2) + 1023 : ℚ)) = some 7 := by
    norm_num [caCodeLookup, chipIndex, fmodQ, truncQ, roundAway, bEx,
      GPS_L1_CA_CODE_LENGTH_CHIPS]
  have hv2 : caCodeLookup bEx ((-(1/2) : ℚ)) = some 5 := by
    norm_num [caCodeLookup, chipIndex, fmodQ, truncQ, roundAway, bEx,
      GPS_L1_CA_CODE_LENGTH_CHIPS]
  rw [e1, e2, hv1, hv2]
  intro h
  norm_num at h

/-! ## Claim C10: in-bounds indexing of the replica resampler -/

/-- Every lookup of update_local_code is defined (returns some) on any
buffer covering [0, 1024], provided the start chip phase is at least -1/2,
the early-late spacing is at most 1/2 and the step is nonnegative. -/
lemma update_local_code_isSome {α : Type} (b : ℤ → Option α)
    (hb : ∀ i : ℤ, 0 ≤ i → i ≤ 1024 → (b i).isSome = true)
    (elspace step : ℚ) (hel0 : 0 ≤ elspace) (hel : elspace ≤ 1/2) (hstep : 0 ≤ step) :
    ∀ (n : ℕ) (t : ℚ), -(1/2) ≤ t →
      ∀ trip ∈ update_local_code b elspace step t n,
        trip.1.isSome = true ∧ trip.2.1.isSome = true ∧ trip.2.2.isSome = true := by
  intro n
  induction n with
  | zero =>
    intro t ht trip htrip
    simp [update_local_code] at htrip
  | succ n ih =>
    intro t ht trip htrip
    simp only [update_local_code, List.mem_cons] at htrip
    rcases htrip with h | h
    · subst h
      refine ⟨?_, ?_, ?_⟩
      · obtain ⟨hl, hu⟩ := chipIndex_bounds (x := t - elspace) (by linarith)
        exact hb _ hl hu
      · obtain ⟨hl, hu⟩ := chipIndex_bounds (x := t) (by linarith)
        exact hb _ hl hu
      · obtain ⟨hl, hu⟩ := chipIndex_bounds (x := t + elspace) (by linarith)
        exact hb _ hl hu
    · exact ih (t + step) (by linarith) trip h

/-- C10 (confirmed): under the preconditions |rem_code_phase_samples| <= 1/2,
0 < early_late_space_chips <= 1/2 and 0 < code_freq_hz <= fs, every Early,
Prompt and Late read of update_local_code (initial tcode_chips =
-(rem_code_phase_samples * code_freq / fs), step code_freq / fs) stays
inside the 1025-element d_ca_code buffer: on any buffer defined on
[0, 1024] every lookup returns a value. -/
theorem C10_resampler_in_bounds {α : Type} (b : ℤ → Option α)
    (hb : ∀ i : ℤ, 0 ≤ i → i ≤ 1024 → (b i).isSome = true)
    (fs code_freq elspace rem : ℚ) (n : ℕ)
    (hrem : |rem| ≤ 1/2) (hel0 : 0 < elspace) (hel : elspace ≤ 1/2)
    (hfreq : 0 < code_freq) (hfs : code_freq ≤ fs) :
    ∀ trip ∈ update_local_code b elspace (code_freq / fs)
        (-(rem * (code_freq / fs))) n,
      trip.1.isSome = true ∧ trip.2.1.isSome = true ∧ trip.2.2.isSome = true := by
  have hfspos : 0 < fs := lt_of_lt_of_le hfreq hfs
  have hstep0 : 0 ≤ code_freq / fs := div_nonneg hfreq.le hfspos.le
  have hstep1 : code_freq / fs ≤ 1 := (div_le_one hfspos).mpr hfs
  have habs : |rem * (code_freq / fs)| ≤ 1/2 := by
    rw [abs_mul]
    have h1 : |code_freq / fs| ≤ 1 := by
      rw [abs_of_nonneg hstep0]
      exact hstep1
    calc |rem| * |code_freq / fs| ≤ (1/2) * 1 :=
          mul_le_mul hrem h1 (abs_nonneg _) (by norm_num)
      _ = 1/2 := by norm_num
  have ht0 : -(1/2) ≤ -(rem * (code_freq / fs)) := by
    have := abs_le.mp habs
    linarith [this.2]
  exact update_local_code_isSome b hb elspace (code_freq / fs) hel0.le hel hstep0 n _ ht0

/-- C10 witness: the concrete buffer bEx with rem = 1/2, elspace = 1/2 and
code_freq = fs = 4; the produced triple is a member of the output and all
its three lookups returned values. -/
theorem C10_resampler_in_bounds_witness :
    (some (5:ℚ), some (5:ℚ), some (7:ℚ)) ∈
      update_local_code bEx (1/2) ((4:ℚ)/4) (-(1/2 * ((4:ℚ)/4))) 1 ∧
    ((some (5:ℚ), some (5:ℚ), some (7:ℚ)).1.isSome = true ∧
     (some (5:ℚ), some (5:ℚ), some (7:ℚ)).2.1.isSome = true ∧
     (some (5:ℚ), some (5:ℚ), some (7:ℚ)).2.2.isSome = true) := by
  have e1 : update_local_code bEx (1/2) ((4:ℚ)/4) (-(1/2 * ((4:ℚ)/4))) 1 =
      [(caCodeLookup bEx ((-(1/2 * ((4:ℚ)/4))) - 1/2),
        caCodeLookup bEx ((-(1/2 * ((4:ℚ)/4)))),
        caCodeLookup bEx ((-(1/2 * ((4:ℚ)/4))) + 1/2))] := rfl
  have hv1 : caCodeLookup bEx ((-(1/2 * ((4:ℚ)/4))) - 1/2) = some 5 := by
    norm_num [caCodeLookup, chipIndex, fmodQ, truncQ, roundAway, bEx,
      GPS_L1_CA_CODE_LENGTH_CHIPS]
  have hv2 : caCodeLookup bEx ((-(1/2 * ((4:ℚ)/4)))) = some 5 := by
    norm_num [caCodeLookup, chipIndex, fmodQ, truncQ, roundAway, bEx,
      GPS_L1_CA_CODE_LENGTH_CHIPS]
  have hv3 : caCodeLookup bEx ((-(1/2 * ((4:ℚ)/4))) + 1/2) = some 7 := by
    norm_num [caCodeLookup, chipIndex, fmodQ, truncQ, roundAway, bEx,
      GPS_L1_CA_CODE_LENGTH_CHIPS]
  have hmem : (some (5:ℚ), some (5:ℚ), some (7:ℚ)) ∈
      update_local_code bEx (1/2) ((4:ℚ)/4) (-(1/2 * ((4:ℚ)/4))) 1 := by
    rw [e1, hv1, hv2, hv3]
    exact List.mem_singleton.mpr rfl
  refine ⟨hmem, ?_⟩
  exact C10_resampler_in_bounds bEx
    (by
      intro i h1 h2
      unfold bEx
      split_ifs <;> simp_all)
    4 4 (1/2) (1/2) 1 (by norm_num [abs_le]) (by norm_num) (by norm_num)
    (by norm_num) (by norm_num) _ hmem

/-! ## Claim C1: the lock-detector fail-counter condition -/

/-- A running state with a full Prompt buffer and fail counter 7; the
constructor threshold d_carrier_lock_threshold = 5 is in force. -/
def sC1 : TrackingState :=
  { mkTrackingState cfgA with
    d_enable_tracking := true
    d_pull_in := false
    d_next_prn_length_samples := 4000
    d_cn0_estimation_counter := 10
    d_carrier_lock_fail_counter := 7 }

/-- A healthy-signal oracle: lock test 0.9 (near 1, locked) and CN0
30 dB-Hz (above the 25 dB-Hz minimum). -/
def oC1 : Oracle :=
  { ninput := 8000, promptIsNaN := false, prompt_re := 1, prompt_im := 0,
    carr_nco := 0, code_nco := 0, cn0 := 30, lock_test := 9/10 }

/-- C1 evidence: at carrier_lock_test 0.9 and CN0 30 dB-Hz (a locked,
strong signal) the stream-step increments the fail counter from 7 to 8,
because line 500 compares carrier_lock_test (not CN0) against
MINIMUM_VALID_CN0 and uses the threshold literal 5; the update the
specification describes (threshold 0.85, CN0 < 25 disjunct) decrements it
to 6.  The else branch of line 500 is dead for every lock-test value below
5, which the normalized lock statistic never exceeds. -/
theorem C1_lock_condition_divergence :
    (general_work cfgA seedA sC1 oC1).state.d_carrier_lock_fail_counter = 8 ∧
    lockFailUpdate 5 (9/10) 7 = 8 ∧
    specLockFailUpdate (85/100) (9/10) 30 7 = 6 := by
  refine ⟨?_, ?_, ?_⟩
  · norm_num [general_work, updateLocalCarrier, finishStep, lockDetector, lockFailUpdate,
      mkTrackingState, sC1, oC1, cfgA, seedA, fmodQ, truncQ, roundAway,
      CN0_ESTIMATION_SAMPLES, MAXIMUM_LOCK_FAIL_COUNTER, MINIMUM_VALID_CN0,
      GPS_L1_CA_CODE_LENGTH_CHIPS, GPS_L1_CA_CODE_RATE_HZ]
  · norm_num [lockFailUpdate, MINIMUM_VALID_CN0]
  · norm_num [specLockFailUpdate, MINIMUM_VALID_CN0]

/-! ## Claim C8: sample-counter bookkeeping across paths -/

/-- C8 evidence: starting from a state whose two counters are consistent
(8000 samples, 1/500 s at fs 4 MHz), the NaN path advances sample_counter
by the 4000 available samples but leaves sample_counter_seconds untouched,
so afterwards sample_counter_seconds differs from sample_counter / fs
(1/500 s versus 3/1000 s); the claimed equality fails on the NaN path. -/
theorem C8_seconds_desync_on_nan :
    sRun.d_sample_counter_seconds = (sRun.d_sample_counter : ℚ) / cfgA.fs_in ∧
    (general_work cfgA seedA sRun oNaN).state.d_sample_counter = 12000 ∧
    (general_work cfgA seedA sRun oNaN).state.d_sample_counter_seconds = 1/500 ∧
    ¬ ((general_work cfgA seedA sRun oNaN).state.d_sample_counter_seconds =
       ((general_work cfgA seedA sRun oNaN).state.d_sample_counter : ℚ) / cfgA.fs_in) := by
  refine ⟨by norm_num [sRun, mkTrackingState, cfgA], ?_, ?_, ?_⟩ <;>
    norm_num [general_work, updateLocalCarrier, mkTrackingState, sRun, oNaN, cfgA, seedA,
      fmodQ, truncQ, roundAway]

end GpsL1Tracking
